import Mathlib

/-!
Shallow embedding of `src/bh1750.py`, a MicroPython driver for the BH1750
ambient-light sensor, together with proofs about the claims of its
specification.

Modelling choices:
* The I2C bus collaborator (`machine.I2C`) is modelled as an oracle `Bus`
  fixing the outcome of `scan()`, of the n-th `writeto` attempt, and of
  `readfrom_into`.
* A `BH1750` object is a record `St` of its Python attributes.  Attributes
  that the constructor may not have assigned yet (`mode`, `mtreg`) are
  `Option`-valued: reading them while unassigned is Python's
  `AttributeError`, modelled by `Err.attrError`.
* Python exceptions carry on the mutations already made, so every method is
  a function `St → Res α` where `Res` keeps the state in the error case.
* `OSError` message f-strings are modelled structurally by `OSMsg`;
  `OSMsg.render` reproduces the exact source strings.
* Python `float` arithmetic in `lux` is modelled by exact rational
  arithmetic (`ℚ`); the wait-time computation `int(base_ms * (mtreg / 69))`
  is modelled by natural floor division, which agrees with the source's
  float computation on the entire clamped MTreg range.
* `time.sleep_ms` calls are logged in `St.slept`; successfully transmitted
  bytes are logged in `St.written`.
-/

namespace BH1750

/-- Structural model of the `OSError` messages built by the driver's
f-strings; `render` below reproduces the exact strings. -/
inductive OSMsg where
  /-- an OSError text coming from the underlying I2C driver -/
  | fromBus (text : String)
  /-- Source item `OSError("BH1750 not found on I2C bus")` -/
  | notFound
  /-- Source item `OSError(f"I2C scan failed: {e}")` -/
  | scanFailed (inner : OSMsg)
  /-- Source item `OSError(f"BH1750 I2C write failed: {e}")` -/
  | writeFailed (inner : OSMsg)
  /-- Source item `OSError(f"BH1750 I2C read failed: {e}")` -/
  | readFailed (inner : OSMsg)
deriving Repr, DecidableEq

/-- The exact message string of a modelled `OSError`. -/
def OSMsg.render : OSMsg → String
  | .fromBus t => t
  | .notFound => "BH1750 not found on I2C bus"
  | .scanFailed e => "I2C scan failed: " ++ e.render
  | .writeFailed e => "BH1750 I2C write failed: " ++ e.render
  | .readFailed e => "BH1750 I2C read failed: " ++ e.render

/-- Python exceptions the driver can raise. -/
inductive Err where
  /-- Source item `AttributeError` from reading a never-assigned attribute -/
  | attrError (name : String)
  /-- Source item `OSError` with the given (structurally modelled) message -/
  | osError (msg : OSMsg)
  /-- Source item `ValueError` from storing a value ≥ 256 into a `bytearray` cell -/
  | valueError
deriving Repr, DecidableEq

/-- The Python attributes of a `BH1750` object, plus the observable bus
history (`written`: bytes successfully transmitted; `writeCount`: `writeto`
attempts made; `slept`: arguments of `time.sleep_ms` calls). -/
structure St where
  addr : Nat
  writeBuf : Nat
  readBuf : Nat × Nat
  mode : Option Nat
  mtreg : Option Nat
  writeCount : Nat
  written : List Nat
  slept : List Nat
deriving Repr, DecidableEq

/-- Result of running a driver method: outcome plus the state after it,
kept also when an exception propagates (Python keeps mutations made before
a `raise`). -/
inductive Res (α : Type) where
  | ok (a : α) (s : St)
  | err (e : Err) (s : St)
deriving Repr, DecidableEq

/-- The state component of a result. -/
def Res.state : Res α → St
  | .ok _ s => s
  | .err _ s => s

/-- The value component of a result, when it succeeded. -/
def Res.val : Res α → Option α
  | .ok a _ => some a
  | .err _ _ => none

/-- Oracle for the I2C bus collaborator: the outcome of `scan()`, of the
n-th `writeto` attempt (counted from 0), and of `readfrom_into` (two
bytes). -/
structure Bus where
  scanResult : Except OSMsg (List Nat)
  writeResult : Nat → Except OSMsg Unit
  readResult : Except OSMsg (Nat × Nat)

/-- I2C address constants: `_ADDR_LOW = const(0x23)`, `_ADDR_HIGH = const(0x5C)`. -/
def _ADDR_LOW : Nat := 0x23

/-- ADDR pin high. -/
def _ADDR_HIGH : Nat := 0x5C

/-- Commands: `_POWER_DOWN = const(0x00)`. -/
def _POWER_DOWN : Nat := 0x00

/-- Source item `_POWER_ON = const(0x01)`. -/
def _POWER_ON : Nat := 0x01

/-- Source item `_RESET = const(0x07)`. -/
def _RESET : Nat := 0x07

/-- Source item `_COMMAND_DELAY_MS = const(5)`. -/
def _COMMAND_DELAY_MS : Nat := 5

/-- Source item `_MTREG_MIN = const(31)`. -/
def _MTREG_MIN : Int := 31

/-- Source item `_MTREG_MAX = const(254)`. -/
def _MTREG_MAX : Int := 254

/-- Source item `_MTREG_DEFAULT = const(69)`. -/
def _MTREG_DEFAULT : Int := 69

/-- Source item `CONTINUOUS_HIGH_RESOLUTION = const(0x10)`. -/
def CONTINUOUS_HIGH_RESOLUTION : Nat := 0x10

/-- Source item `CONTINUOUS_HIGH_RESOLUTION_2 = const(0x11)`. -/
def CONTINUOUS_HIGH_RESOLUTION_2 : Nat := 0x11

/-- Source item `CONTINUOUS_LOW_RESOLUTION = const(0x13)`. -/
def CONTINUOUS_LOW_RESOLUTION : Nat := 0x13

/-- Source item `ONE_TIME_HIGH_RESOLUTION = const(0x20)`. -/
def ONE_TIME_HIGH_RESOLUTION : Nat := 0x20

/-- Source item `ONE_TIME_HIGH_RESOLUTION_2 = const(0x21)`. -/
def ONE_TIME_HIGH_RESOLUTION_2 : Nat := 0x21

/-- Source item `ONE_TIME_LOW_RESOLUTION = const(0x23)`. -/
def ONE_TIME_LOW_RESOLUTION : Nat := 0x23

/-- Source item `BH1750._autodetect_addr`: scan the bus; return the low address if
present, else the high address if present, else raise
`OSError("BH1750 not found on I2C bus")`.  The whole body sits in a
`try/except OSError` that re-raises as `OSError(f"I2C scan failed: {e}")`,
so the not-found error is also wrapped by it. -/
def _autodetect_addr (bus : Bus) : Except Err Nat :=
  match bus.scanResult with
  | .error e => .error (.osError (.scanFailed e))
  | .ok addrs =>
    if _ADDR_LOW ∈ addrs then .ok _ADDR_LOW
    else if _ADDR_HIGH ∈ addrs then .ok _ADDR_HIGH
    else .error (.osError (.scanFailed .notFound))

/-- Source item `BH1750._write_cmd`: store `cmd` into the 1-byte write buffer (a
`bytearray` cell, so `cmd` must be a byte, else `ValueError`), then
`i2c.writeto(self.addr, buf)`; an `OSError` is re-raised as
`OSError(f"BH1750 I2C write failed: {e}")`. -/
def _write_cmd (bus : Bus) (cmd : Nat) (s : St) : Res Unit :=
  if cmd < 256 then
    let s := { s with writeBuf := cmd }
    match bus.writeResult s.writeCount with
    | .ok _ =>
      .ok () { s with writeCount := s.writeCount + 1, written := s.written ++ [cmd] }
    | .error e =>
      .err (.osError (.writeFailed e)) { s with writeCount := s.writeCount + 1 }
  else
    .err .valueError s

/-- Source item `BH1750.power_on`: write `_POWER_ON`, then `time.sleep_ms(_COMMAND_DELAY_MS)`. -/
def power_on (bus : Bus) (s : St) : Res Unit :=
  match _write_cmd bus _POWER_ON s with
  | .err e s' => .err e s'
  | .ok _ s' => .ok () { s' with slept := s'.slept ++ [_COMMAND_DELAY_MS] }

/-- Source item `BH1750.power_down`: write `_POWER_DOWN` (no delay). -/
def power_down (bus : Bus) (s : St) : Res Unit :=
  _write_cmd bus _POWER_DOWN s

/-- Source item `BH1750.reset`: write `_RESET`, then `time.sleep_ms(_COMMAND_DELAY_MS)`. -/
def reset (bus : Bus) (s : St) : Res Unit :=
  match _write_cmd bus _RESET s with
  | .err e s' => .err e s'
  | .ok _ s' => .ok () { s' with slept := s'.slept ++ [_COMMAND_DELAY_MS] }

/-- Source item `BH1750.set_mtreg`: `self.mtreg = max(_MTREG_MIN, min(mtreg, _MTREG_MAX))`
(the store happens before either transmission), then write
`0b0100_0000 | (self.mtreg >> 5)` and `0b0110_0000 | (self.mtreg & 0b0001_1111)`. -/
def set_mtreg (bus : Bus) (mtreg : Int) (s : St) : Res Unit :=
  let c : Nat := (max _MTREG_MIN (min mtreg _MTREG_MAX)).toNat
  let s := { s with mtreg := some c }
  let high_byte : Nat := 0x40 ||| (c >>> 5)
  let low_byte : Nat := 0x60 ||| (c &&& 0x1F)
  match _write_cmd bus high_byte s with
  | .err e s' => .err e s'
  | .ok _ s' => _write_cmd bus low_byte s'

/-- Source item `BH1750.set_mode`: `if self.mode == mode and not force: return` —
Python evaluates `self.mode` first, so on an object whose `mode` attribute
was never assigned this raises `AttributeError` whatever `force` is.
Otherwise `self.mode = mode` (the store happens before the transmission)
and then `self._write_cmd(self.mode)`, i.e. the just-stored `mode`. -/
def set_mode (bus : Bus) (mode : Nat) (force : Bool) (s : St) : Res Unit :=
  match s.mode with
  | none => .err (.attrError "mode") s
  | some m =>
    if m = mode ∧ force = false then .ok () s
    else
      let s := { s with mode := some mode }
      _write_cmd bus mode s

/-- Source item `BH1750.raw` (property): `i2c.readfrom_into(self.addr, self._read_buf)`
(filling the 2-byte read buffer with bytes), then return
`(buf[0] << 8) | buf[1]`; an `OSError` is re-raised as
`OSError(f"BH1750 I2C read failed: {e}")`. -/
def raw (bus : Bus) (s : St) : Res Nat :=
  match bus.readResult with
  | .error e => .err (.osError (.readFailed e)) s
  | .ok b =>
    let s := { s with readBuf := (b.1 % 256, b.2 % 256) }
    .ok ((s.readBuf.1 <<< 8) ||| s.readBuf.2) s

/-- Source item `BH1750.lux` (property): if the mode is one-shot
(`self.mode & 0xF0 == 0x20`) re-issue `set_mode(self.mode, force=True)`
(which leaves `self.mode` unchanged since it rewrites the same value);
wait `int(base_ms * (self.mtreg / 69))` ms where `base_ms` is 180 for the
four high-resolution modes and 24 otherwise (floor division: on the whole
MTreg range the source's float computation truncates to exactly this);
read the raw value; return `(raw / 1.2) * (69 / self.mtreg)`, halved for
the two high-resolution-2 modes.  Reading a never-assigned `self.mode` or
`self.mtreg` raises `AttributeError`. -/
def lux (bus : Bus) (s : St) : Res ℚ :=
  match s.mode with
  | none => .err (.attrError "mode") s
  | some mode =>
    let step1 : Res Unit :=
      if mode &&& 0xF0 = 0x20 then set_mode bus mode true s else .ok () s
    match step1 with
    | .err e s1 => .err e s1
    | .ok _ s1 =>
      let base_ms : Nat :=
        if mode = CONTINUOUS_HIGH_RESOLUTION ∨ mode = CONTINUOUS_HIGH_RESOLUTION_2
            ∨ mode = ONE_TIME_HIGH_RESOLUTION ∨ mode = ONE_TIME_HIGH_RESOLUTION_2
        then 180 else 24
      match s1.mtreg with
      | none => .err (.attrError "mtreg") s1
      | some mt =>
        let wait_ms : Nat := base_ms * mt / 69
        let s2 := { s1 with slept := s1.slept ++ [wait_ms] }
        match raw bus s2 with
        | .err e s3 => .err e s3
        | .ok raw_val s3 =>
          let lux0 : ℚ := ((raw_val : ℚ) / 1.2) * ((69 : ℚ) / (mt : ℚ))
          let lux1 : ℚ :=
            if mode = CONTINUOUS_HIGH_RESOLUTION_2 ∨ mode = ONE_TIME_HIGH_RESOLUTION_2
            then lux0 / 2 else lux0
          .ok lux1 s3

/-- The attribute record of a freshly allocated `BH1750` object whose
`addr` attribute has been assigned: `mode` and `mtreg` not yet assigned,
buffers zeroed, no bus traffic yet. -/
def initSt (addr : Nat) : St :=
  { addr := addr, writeBuf := 0, readBuf := (0, 0), mode := none, mtreg := none,
    writeCount := 0, written := [], slept := [] }

/-- Source item `BH1750.__init__`: resolve the address (`addr` argument, else
autodetect — when autodetection fails the exception propagates before any
object state exists, modelled by returning `initSt 0` untouched), allocate
the buffers, then `power_on()`, `reset()`, `set_mtreg(mtreg)`,
`set_mode(mode, force=True)`; any exception aborts the remaining steps.
The Python defaults are `mode=CONTINUOUS_HIGH_RESOLUTION`,
`mtreg=_MTREG_DEFAULT`. -/
def init (bus : Bus) (addr : Option Nat) (mode : Nat) (mtreg : Int) : Res Unit :=
  match (match addr with | some a => Except.ok a | none => _autodetect_addr bus) with
  | .error e => .err e (initSt 0)
  | .ok a =>
    match power_on bus (initSt a) with
    | .err e s' => .err e s'
    | .ok _ s' =>
      match reset bus s' with
      | .err e s' => .err e s'
      | .ok _ s' =>
        match set_mtreg bus mtreg s' with
        | .err e s' => .err e s'
        | .ok _ s' => set_mode bus mode true s'

/-- A bus on which only the low-address device responds, every write is
acknowledged, and reads return two zero bytes. -/
def busLow : Bus :=
  { scanResult := .ok [0x23], writeResult := fun _ => .ok (), readResult := .ok (0, 0) }

/-- A bus on which the device responds at the low address but every write
attempt fails at the transport level. -/
def busWriteFail : Bus :=
  { scanResult := .ok [0x23], writeResult := fun _ => .error (.fromBus "ENODEV"),
    readResult := .ok (0, 0) }

/-- A configured controller: low address, continuous high-resolution mode,
default sensitivity 69, no bus traffic logged yet. -/
def sDefault : St :=
  { addr := 0x23, writeBuf := 0, readBuf := (0, 0), mode := some 0x10,
    mtreg := some 69, writeCount := 0, written := [], slept := [] }

/-- A configured controller in one-shot high-resolution mode. -/
def sOneShot : St :=
  { sDefault with mode := some 0x20 }

/-- A bus with no device on any address. -/
def busEmpty : Bus :=
  { scanResult := .ok [], writeResult := fun _ => .ok (), readResult := .ok (0, 0) }

/-- A bus answering at the low address whose reads return the two bytes
0xD5, 0x54 (raw reading 54612). -/
def busD554 : Bus :=
  { scanResult := .ok [0x23], writeResult := fun _ => .ok (),
    readResult := .ok (0xD5, 0x54) }

/-- Invariant of claim C10: the stored sensitivity register, when it has
been assigned at all, lies in [31, 254]. -/
def MtregInv (s : St) : Prop := ∀ c, s.mtreg = some c → 31 ≤ c ∧ c ≤ 254

/-- Helper: `_write_cmd` never changes the `mtreg` attribute. -/
theorem _write_cmd_mtreg (bus : Bus) (c : Nat) (s : St) :
    ((_write_cmd bus c s).state).mtreg = s.mtreg := by
  unfold _write_cmd
  split
  · dsimp only
    split <;> rfl
  · rfl

/-- Helper: `_write_cmd` never changes the `mode` attribute. -/
theorem _write_cmd_mode (bus : Bus) (c : Nat) (s : St) :
    ((_write_cmd bus c s).state).mode = s.mode := by
  unfold _write_cmd
  split
  · dsimp only
    split <;> rfl
  · rfl

/-- Helper: `_write_cmd` never changes the sleep log. -/
theorem _write_cmd_slept (bus : Bus) (c : Nat) (s : St) :
    ((_write_cmd bus c s).state).slept = s.slept := by
  unfold _write_cmd
  split
  · dsimp only
    split <;> rfl
  · rfl

/-- Success case of `_write_cmd`: when the command is a byte and the bus
acknowledges the attempt, the byte lands in the write buffer and the
transmission log. -/
theorem _write_cmd_ok (bus : Bus) (c : Nat) (s : St) (hc : c < 256)
    (hw : bus.writeResult s.writeCount = Except.ok ()) :
    _write_cmd bus c s =
      .ok () { s with writeBuf := c, writeCount := s.writeCount + 1,
                      written := s.written ++ [c] } := by
  unfold _write_cmd
  rw [if_pos hc]
  dsimp only
  rw [hw]

/-- Bytes of the form `0x40 ||| x` with `x ≤ 7` are bytes. -/
theorem or_x40_lt_256 (x : Nat) (hx : x ≤ 7) : 0x40 ||| x < 256 := by
  interval_cases x <;> decide

/-- Bytes of the form `0x60 ||| x` with `x ≤ 31` are bytes. -/
theorem or_x60_lt_256 (x : Nat) (hx : x ≤ 31) : 0x60 ||| x < 256 := by
  interval_cases x <;> decide

/-- The clamped MTreg value is between 31 and 254. -/
theorem clamp_bounds (v : Int) :
    31 ≤ (max _MTREG_MIN (min v _MTREG_MAX)).toNat ∧
    (max _MTREG_MIN (min v _MTREG_MAX)).toNat ≤ 254 := by
  unfold _MTREG_MIN _MTREG_MAX
  omega

/-- After `set_mtreg`, whatever the transport outcome, the stored
sensitivity is the clamped input (the store precedes both transmissions). -/
theorem set_mtreg_mtreg (bus : Bus) (v : Int) (s : St) :
    ((set_mtreg bus v s).state).mtreg =
      some ((max _MTREG_MIN (min v _MTREG_MAX)).toNat) := by
  unfold set_mtreg
  dsimp only
  split
  · next e s' heq =>
      have h1 := _write_cmd_mtreg bus (0x40 |||
        ((max _MTREG_MIN (min v _MTREG_MAX)).toNat >>> 5))
        { s with mtreg := some ((max _MTREG_MIN (min v _MTREG_MAX)).toNat) }
      rw [heq] at h1
      simpa [Res.state] using h1
  · next a s' heq =>
      have h1 := _write_cmd_mtreg bus (0x40 |||
        ((max _MTREG_MIN (min v _MTREG_MAX)).toNat >>> 5))
        { s with mtreg := some ((max _MTREG_MIN (min v _MTREG_MAX)).toNat) }
      rw [heq] at h1
      simp only [Res.state] at h1
      have h2 := _write_cmd_mtreg bus (0x60 |||
        ((max _MTREG_MIN (min v _MTREG_MAX)).toNat &&& 0x1F)) s'
      rw [h2, h1]

/-- After `set_mode` on a controller with a stored mode, whatever the
transport outcome, the stored mode is the requested mode (the store
precedes the transmission; in the suppressed no-op case the stored mode
already equals the request). -/
theorem set_mode_mode (bus : Bus) (m : Nat) (force : Bool) (s : St) (m0 : Nat)
    (h : s.mode = some m0) :
    ((set_mode bus m force s).state).mode = some m := by
  unfold set_mode
  rw [h]
  dsimp only
  split
  · next hg =>
      simp [Res.state, ← hg.1, h]
  · next hg =>
      have := _write_cmd_mode bus m { s with mode := some m }
      simpa using this

/-- Helper: `set_mode` never changes the stored sensitivity. -/
theorem set_mode_mtreg (bus : Bus) (m : Nat) (force : Bool) (s : St) :
    ((set_mode bus m force s).state).mtreg = s.mtreg := by
  unfold set_mode
  split
  · rfl
  · dsimp only
    split
    · rfl
    · have := _write_cmd_mtreg bus m { s with mode := some m }
      simpa using this

/-- Helper: `set_mode` never sleeps. -/
theorem set_mode_slept (bus : Bus) (m : Nat) (force : Bool) (s : St) :
    ((set_mode bus m force s).state).slept = s.slept := by
  unfold set_mode
  split
  · rfl
  · dsimp only
    split
    · rfl
    · have := _write_cmd_slept bus m { s with mode := some m }
      simpa using this

/-- No-op case of `set_mode`: same mode, `force = false`, no transmission,
state untouched. -/
theorem set_mode_noop (bus : Bus) (m : Nat) (s : St) (h : s.mode = some m) :
    set_mode bus m false s = .ok () s := by
  unfold set_mode
  rw [h]
  dsimp only
  rw [if_pos ⟨rfl, rfl⟩]

/-- Transmitting case of `set_mode`: when the request differs from the
stored mode or `force` is set, and the bus acknowledges, exactly the one
mode byte is transmitted and the mode is stored. -/
theorem set_mode_ok (bus : Bus) (m : Nat) (force : Bool) (s : St) (m0 : Nat)
    (h : s.mode = some m0) (hnm : force = true ∨ m ≠ m0) (hm : m < 256)
    (hw : bus.writeResult s.writeCount = Except.ok ()) :
    set_mode bus m force s =
      .ok () { s with mode := some m, writeBuf := m,
                      writeCount := s.writeCount + 1,
                      written := s.written ++ [m] } := by
  unfold set_mode
  rw [h]
  dsimp only
  have hguard : ¬(m0 = m ∧ force = false) := by
    rintro ⟨he, hf⟩
    rcases hnm with h1 | h2
    · subst h1; exact absurd hf (by simp)
    · exact h2 he.symm
  rw [if_neg hguard]
  exact _write_cmd_ok bus m { s with mode := some m } hm hw

/-- Helper: `raw` on a successful bus read: the two bytes land in the read buffer
and the big-endian 16-bit value is returned; only the read buffer changes. -/
theorem raw_ok (bus : Bus) (s : St) (b0 b1 : Nat)
    (hr : bus.readResult = Except.ok (b0, b1)) :
    raw bus s =
      .ok (((b0 % 256) <<< 8) ||| (b1 % 256)) { s with readBuf := (b0 % 256, b1 % 256) } := by
  unfold raw
  rw [hr]

/-- Helper: `raw` changes at most the read buffer, whatever the bus outcome. -/
theorem raw_state (bus : Bus) (s : St) :
    (raw bus s).state = { s with readBuf := ((raw bus s).state).readBuf } := by
  unfold raw
  split <;> rfl

/-- Helper: `raw` never changes the stored sensitivity. -/
theorem raw_mtreg (bus : Bus) (s : St) :
    ((raw bus s).state).mtreg = s.mtreg := by
  unfold raw
  split <;> rfl

/-- Helper: `raw` never sleeps. -/
theorem raw_slept (bus : Bus) (s : St) :
    ((raw bus s).state).slept = s.slept := by
  unfold raw
  split <;> rfl

/-- Helper: `raw` on a failing bus read raises the wrapped read error and leaves
the state untouched. -/
theorem raw_err (bus : Bus) (s : St) (e : OSMsg)
    (hr : bus.readResult = Except.error e) :
    raw bus s = .err (.osError (.readFailed e)) s := by
  unfold raw
  rw [hr]

/-- Full success run of `lux` in a one-shot mode: the mode byte is
retransmitted (force = true), the scaled wait is logged, the read fills
the buffer, and the converted value is returned. -/
theorem lux_ok_oneShot (bus : Bus) (s : St) (m mt b0 b1 : Nat)
    (hm : s.mode = some m) (hmt : s.mtreg = some mt)
    (hos : m &&& 0xF0 = 0x20) (hmode : m < 256)
    (hw : bus.writeResult s.writeCount = Except.ok ())
    (hr : bus.readResult = Except.ok (b0, b1)) :
    lux bus s =
      .ok (if m = CONTINUOUS_HIGH_RESOLUTION_2 ∨ m = ONE_TIME_HIGH_RESOLUTION_2
           then (((((b0 % 256) <<< 8) ||| (b1 % 256) : Nat) : ℚ) / 1.2 *
                  ((69 : ℚ) / (mt : ℚ))) / 2
           else ((((b0 % 256) <<< 8) ||| (b1 % 256) : Nat) : ℚ) / 1.2 *
                  ((69 : ℚ) / (mt : ℚ)))
        { s with
          mode := some m, writeBuf := m, writeCount := s.writeCount + 1,
          written := s.written ++ [m],
          slept := s.slept ++
            [(if m = CONTINUOUS_HIGH_RESOLUTION ∨ m = CONTINUOUS_HIGH_RESOLUTION_2
                ∨ m = ONE_TIME_HIGH_RESOLUTION ∨ m = ONE_TIME_HIGH_RESOLUTION_2
              then 180 else 24) * mt / 69],
          readBuf := (b0 % 256, b1 % 256) } := by
  unfold lux
  rw [hm]
  dsimp only
  rw [if_pos hos, set_mode_ok bus m true s m hm (Or.inl rfl) hmode hw]
  dsimp only
  rw [hmt]
  dsimp only
  rw [raw_ok bus _ b0 b1 hr]

/-- Full success run of `lux` in a continuous mode: no retransmission,
the scaled wait is logged, the read fills the buffer, and the converted
value is returned. -/
theorem lux_ok_cont (bus : Bus) (s : St) (m mt b0 b1 : Nat)
    (hm : s.mode = some m) (hmt : s.mtreg = some mt)
    (hnos : ¬(m &&& 0xF0 = 0x20))
    (hr : bus.readResult = Except.ok (b0, b1)) :
    lux bus s =
      .ok (if m = CONTINUOUS_HIGH_RESOLUTION_2 ∨ m = ONE_TIME_HIGH_RESOLUTION_2
           then (((((b0 % 256) <<< 8) ||| (b1 % 256) : Nat) : ℚ) / 1.2 *
                  ((69 : ℚ) / (mt : ℚ))) / 2
           else ((((b0 % 256) <<< 8) ||| (b1 % 256) : Nat) : ℚ) / 1.2 *
                  ((69 : ℚ) / (mt : ℚ)))
        { s with
          slept := s.slept ++
            [(if m = CONTINUOUS_HIGH_RESOLUTION ∨ m = CONTINUOUS_HIGH_RESOLUTION_2
                ∨ m = ONE_TIME_HIGH_RESOLUTION ∨ m = ONE_TIME_HIGH_RESOLUTION_2
              then 180 else 24) * mt / 69],
          readBuf := (b0 % 256, b1 % 256) } := by
  unfold lux
  rw [hm]
  dsimp only
  rw [if_neg hnos]
  dsimp only
  rw [hmt]
  dsimp only
  rw [raw_ok bus _ b0 b1 hr]
  dsimp only
  rw [hm]

/-- Helper: `power_on` never changes the stored sensitivity. -/
theorem power_on_mtreg (bus : Bus) (s : St) :
    ((power_on bus s).state).mtreg = s.mtreg := by
  unfold power_on
  split
  · next e s' heq =>
      have h1 := _write_cmd_mtreg bus _POWER_ON s
      rw [heq] at h1
      simpa using h1
  · next a s' heq =>
      have h1 := _write_cmd_mtreg bus _POWER_ON s
      rw [heq] at h1
      simpa using h1

/-- Helper: `reset` never changes the stored sensitivity. -/
theorem reset_mtreg (bus : Bus) (s : St) :
    ((reset bus s).state).mtreg = s.mtreg := by
  unfold reset
  split
  · next e s' heq =>
      have h1 := _write_cmd_mtreg bus _RESET s
      rw [heq] at h1
      simpa using h1
  · next a s' heq =>
      have h1 := _write_cmd_mtreg bus _RESET s
      rw [heq] at h1
      simpa using h1

/-- Helper: `lux` never changes the stored sensitivity. -/
theorem lux_mtreg (bus : Bus) (s : St) :
    ((lux bus s).state).mtreg = s.mtreg := by
  unfold lux
  split
  · rfl
  · next mode hmode =>
    dsimp only
    split
    · next e s1 heq =>
      split at heq
      · have h1 := set_mode_mtreg bus mode true s
        rw [heq] at h1
        simpa using h1
      · cases heq
    · next a s1 heq =>
      have hs1 : s1.mtreg = s.mtreg := by
        split at heq
        · have h1 := set_mode_mtreg bus mode true s
          rw [heq] at h1
          simpa using h1
        · cases heq; rfl
      split
      · simpa using hs1
      · next mt hmt =>
        split
        · next e s3 heq2 =>
          have h2 := raw_mtreg bus { s1 with slept := s1.slept ++
            [(if mode = CONTINUOUS_HIGH_RESOLUTION ∨ mode = CONTINUOUS_HIGH_RESOLUTION_2
                ∨ mode = ONE_TIME_HIGH_RESOLUTION ∨ mode = ONE_TIME_HIGH_RESOLUTION_2
              then 180 else 24) * mt / 69] }
          rw [heq2] at h2
          simp only [Res.state] at h2 ⊢
          rw [h2]
          exact hs1
        · next v s3 heq2 =>
          have h2 := raw_mtreg bus { s1 with slept := s1.slept ++
            [(if mode = CONTINUOUS_HIGH_RESOLUTION ∨ mode = CONTINUOUS_HIGH_RESOLUTION_2
                ∨ mode = ONE_TIME_HIGH_RESOLUTION ∨ mode = ONE_TIME_HIGH_RESOLUTION_2
              then 180 else 24) * mt / 69] }
          rw [heq2] at h2
          simp only [Res.state] at h2 ⊢
          rw [h2]
          exact hs1

/-- States whose `mtreg` attribute agrees satisfy `MtregInv` together. -/
theorem MtregInv_of_eq {s s' : St} (he : s'.mtreg = s.mtreg) (h : MtregInv s) :
    MtregInv s' := fun c hc => h c (he ▸ hc)

/-- Whatever the transport outcome, after `set_mtreg` the invariant holds:
the stored value is the clamped input, which is in [31, 254]. -/
theorem set_mtreg_inv (bus : Bus) (v : Int) (s : St) :
    MtregInv ((set_mtreg bus v s).state) := by
  intro c hc
  rw [set_mtreg_mtreg] at hc
  cases hc
  exact clamp_bounds v

/-- Whatever the bus does, any state reached by the constructor satisfies
the sensitivity invariant: `mtreg` is unassigned until `set_mtreg` runs,
and `set_mtreg` stores a clamped value that no later step changes. -/
theorem init_inv (bus : Bus) (addr : Option Nat) (mode : Nat) (mtreg : Int) :
    MtregInv ((init bus addr mode mtreg).state) := by
  unfold init
  split
  · intro c hc
    simp [Res.state, initSt] at hc
  · next a heq =>
    have hinit : MtregInv (initSt a) := by
      intro c hc
      simp [initSt] at hc
    split
    · next e s' heq1 =>
      have h1 := power_on_mtreg bus (initSt a)
      rw [heq1] at h1
      exact MtregInv_of_eq h1 hinit
    · next u s' heq1 =>
      have h1 := power_on_mtreg bus (initSt a)
      rw [heq1] at h1
      simp only [Res.state] at h1
      have hs' : MtregInv s' := MtregInv_of_eq h1 hinit
      split
      · next e s2 heq2 =>
        have h2 := reset_mtreg bus s'
        rw [heq2] at h2
        exact MtregInv_of_eq h2 hs'
      · next u2 s2 heq2 =>
        have h2 := reset_mtreg bus s'
        rw [heq2] at h2
        simp only [Res.state] at h2
        have hs2 : MtregInv s2 := MtregInv_of_eq h2 hs'
        split
        · next e s3 heq3 =>
          have h3 := set_mtreg_inv bus mtreg s2
          rw [heq3] at h3
          exact h3
        · next u3 s3 heq3 =>
          have h3 := set_mtreg_inv bus mtreg s2
          rw [heq3] at h3
          simp only [Res.state] at h3
          exact MtregInv_of_eq (set_mode_mtreg bus mode true s3) h3

end BH1750

open BH1750

/-- C1 — code_bug evaluation. On a bus where the device answers at the low
candidate address and every write succeeds, construction with no explicit
address does NOT succeed: after transmitting power-on (0x01), reset (0x07)
and the two sensitivity bytes (0x42, 0x65), the forced initial
`set_mode` reads the never-assigned `self.mode` attribute and construction
dies with an `AttributeError`; the mode byte 0x10 is never transmitted.
This contradicts the claim (and the repository's own test
`test_initialization_autodetect`). -/
theorem C1_construction_raises_attributeError :
    init busLow none CONTINUOUS_HIGH_RESOLUTION 69 =
      .err (.attrError "mode")
        { addr := 0x23, writeBuf := 0x65, readBuf := (0, 0), mode := none,
          mtreg := some 69, writeCount := 4, written := [0x01, 0x07, 0x42, 0x65],
          slept := [5, 5] } ∧
    CONTINUOUS_HIGH_RESOLUTION ∉
      (init busLow none CONTINUOUS_HIGH_RESOLUTION 69).state.written := by
  constructor
  · rfl
  · decide

/-- C2 — on a controller object whose `mode` attribute has never been
assigned (the state of every controller when construction issues its first
`set_mode` call), `set_mode` fails with an `AttributeError` for every mode
argument and every force flag, before any byte is transmitted: the
resulting state is exactly the input state, so the write log is unchanged
and `force = true` does not bypass the read of the stored mode. -/
theorem C2_set_mode_unstored_mode_attrError (bus : Bus) (mode : Nat) (force : Bool)
    (s : St) (h : s.mode = none) :
    set_mode bus mode force s = .err (.attrError "mode") s := by
  unfold set_mode
  rw [h]

/-- C2 witness. -/
theorem C2_set_mode_unstored_mode_attrError_witness :
    set_mode busLow 0x10 true (initSt 0x23) = .err (.attrError "mode") (initSt 0x23) :=
  C2_set_mode_unstored_mode_attrError busLow 0x10 true (initSt 0x23) rfl

/-- C3 — counterexample. With the stored sensitivity at 69, calling
`set_mtreg 120` on a bus whose first write attempt fails leaves the stored
sensitivity at 120, not 69: the store happens before the first
transmission, so the stored value IS changed although the first
transmission failed, contrary to the claim. -/
theorem C3_counterexample_store_survives_failed_write :
    sDefault.mtreg = some 69 ∧
    set_mtreg busWriteFail 120 sDefault =
      .err (.osError (.writeFailed (.fromBus "ENODEV")))
        { sDefault with mtreg := some 120, writeBuf := 0x43, writeCount := 1 } := by
  constructor
  · rfl
  · rfl

/-- C3 — amended. `set_mtreg` stores the clamped value BEFORE attempting
either transmission, so whatever the transport outcome the stored
sensitivity after the call is the clamped input; likewise `set_mode`
stores the new mode before its transmission, so whenever the stored-mode
read succeeds the stored mode after the call is the requested mode,
whatever the transport outcome. -/
theorem C3_state_committed_before_transmission :
    (∀ (bus : Bus) (v : Int) (s : St),
      ((set_mtreg bus v s).state).mtreg = some ((max _MTREG_MIN (min v _MTREG_MAX)).toNat)) ∧
    (∀ (bus : Bus) (m : Nat) (force : Bool) (s : St) (m0 : Nat), s.mode = some m0 →
      ((set_mode bus m force s).state).mode = some m) := by
  exact ⟨fun bus v s => set_mtreg_mtreg bus v s,
         fun bus m force s m0 h => set_mode_mode bus m force s m0 h⟩

/-- C3 amended witness. -/
theorem C3_state_committed_before_transmission_witness :
    ((set_mtreg busWriteFail 120 sDefault).state).mtreg = some 120 ∧
    ((set_mode busWriteFail 0x11 false sDefault).state).mode = some 0x11 :=
  ⟨C3_state_committed_before_transmission.1 busWriteFail 120 sDefault,
   C3_state_committed_before_transmission.2 busWriteFail 0x11 false sDefault 0x10 rfl⟩

/-- C6 — for every integer input `v`, when the bus acknowledges both write
attempts, `set_mtreg v` succeeds, stores `clamp(v, 31, 254)`, and
transmits exactly the two bytes `0x40 ||| (c >>> 5)` then
`0x60 ||| (c &&& 0x1F)` computed from the clamped value `c`
(transmission is unconditional: no comparison with the previous value
guards it). -/
theorem C6_set_mtreg_clamps_and_sends_two_bytes (bus : Bus) (v : Int) (s : St) (c : Nat)
    (hc : c = (max _MTREG_MIN (min v _MTREG_MAX)).toNat)
    (hw0 : bus.writeResult s.writeCount = Except.ok ())
    (hw1 : bus.writeResult (s.writeCount + 1) = Except.ok ()) :
    set_mtreg bus v s =
      .ok () { s with
               mtreg := some c, writeBuf := 0x60 ||| (c &&& 0x1F),
               writeCount := s.writeCount + 2,
               written := s.written ++ [0x40 ||| (c >>> 5), 0x60 ||| (c &&& 0x1F)] } := by
  subst hc
  have hcb := clamp_bounds v
  have hsh : (max _MTREG_MIN (min v _MTREG_MAX)).toNat >>> 5 ≤ 7 := by
    rw [Nat.shiftRight_eq_div_pow]
    omega
  have hhigh : 0x40 ||| ((max _MTREG_MIN (min v _MTREG_MAX)).toNat >>> 5) < 256 :=
    or_x40_lt_256 _ hsh
  have hlow : 0x60 ||| ((max _MTREG_MIN (min v _MTREG_MAX)).toNat &&& 0x1F) < 256 :=
    or_x60_lt_256 _ (Nat.and_le_right)
  unfold set_mtreg
  dsimp only
  rw [_write_cmd_ok bus (0x40 ||| ((max _MTREG_MIN (min v _MTREG_MAX)).toNat >>> 5))
        { s with mtreg := some ((max _MTREG_MIN (min v _MTREG_MAX)).toNat) } hhigh hw0]
  dsimp only
  rw [_write_cmd_ok bus (0x60 ||| ((max _MTREG_MIN (min v _MTREG_MAX)).toNat &&& 0x1F))
        _ hlow hw1]
  simp

/-- C6 witness: `set_mtreg 120` on an acknowledging bus stores 120 and
transmits `[0x43, 0x78]`. -/
theorem C6_set_mtreg_clamps_and_sends_two_bytes_witness :
    set_mtreg busLow 120 sDefault =
      .ok () { sDefault with
               mtreg := some 120, writeBuf := 0x78,
               writeCount := 2, written := [0x43, 0x78] } := by
  have h := C6_set_mtreg_clamps_and_sends_two_bytes busLow 120 sDefault 120
    (by decide) rfl rfl
  simpa using h

/-- C9 — on a controller with a stored mode `m0`: `set_mode m0 force=false`
transmits nothing and leaves the state untouched; and for any requested
mode byte `m` with `force = true` or `m ≠ m0`, when the bus acknowledges,
exactly one byte equal to `m` is transmitted and `m` is stored. -/
theorem C9_set_mode_dedup_and_transmission (bus : Bus) (s : St) (m0 : Nat)
    (h : s.mode = some m0) :
    set_mode bus m0 false s = .ok () s ∧
    (∀ (m : Nat) (force : Bool), m < 256 → (force = true ∨ m ≠ m0) →
      bus.writeResult s.writeCount = Except.ok () →
      set_mode bus m force s =
        .ok () { s with
                 mode := some m, writeBuf := m,
                 writeCount := s.writeCount + 1, written := s.written ++ [m] }) :=
  ⟨set_mode_noop bus m0 s h,
   fun m force hm hnm hw => set_mode_ok bus m force s m0 h hnm hm hw⟩

/-- C9 witness: with stored mode 0x10, re-setting 0x10 unforced is a
no-op; forcing 0x10 transmits exactly that byte; setting 0x11 transmits
exactly that byte. -/
theorem C9_set_mode_dedup_and_transmission_witness :
    set_mode busLow 0x10 false sDefault = .ok () sDefault ∧
    set_mode busLow 0x10 true sDefault =
      .ok () { sDefault with
               mode := some 0x10, writeBuf := 0x10,
               writeCount := 1, written := [0x10] } ∧
    set_mode busLow 0x11 false sDefault =
      .ok () { sDefault with
               mode := some 0x11, writeBuf := 0x11,
               writeCount := 1, written := [0x11] } :=
  ⟨(C9_set_mode_dedup_and_transmission busLow sDefault 0x10 rfl).1,
   (C9_set_mode_dedup_and_transmission busLow sDefault 0x10 rfl).2 0x10 true
     (by decide) (Or.inl rfl) rfl,
   (C9_set_mode_dedup_and_transmission busLow sDefault 0x10 rfl).2 0x11 false
     (by decide) (Or.inr (by decide)) rfl⟩

/-- C10 — every state the constructor can leave behind satisfies the
sensitivity invariant `mtreg ∈ [31, 254]` (when assigned at all), and
every driver operation preserves the invariant, whatever the bus does:
`set_mtreg` is the only mutator of the register and always stores a
clamped value. -/
theorem C10_mtreg_invariant :
    (∀ (bus : Bus) (addr : Option Nat) (mode : Nat) (mtreg : Int),
      MtregInv ((init bus addr mode mtreg).state)) ∧
    (∀ (bus : Bus) (s : St), MtregInv s →
      MtregInv ((power_on bus s).state) ∧
      MtregInv ((power_down bus s).state) ∧
      MtregInv ((reset bus s).state) ∧
      (∀ v : Int, MtregInv ((set_mtreg bus v s).state)) ∧
      (∀ (m : Nat) (force : Bool), MtregInv ((set_mode bus m force s).state)) ∧
      MtregInv ((raw bus s).state) ∧
      MtregInv ((lux bus s).state)) := by
  refine ⟨init_inv, fun bus s h => ⟨?_, ?_, ?_, ?_, ?_, ?_, ?_⟩⟩
  · exact MtregInv_of_eq (power_on_mtreg bus s) h
  · exact MtregInv_of_eq (_write_cmd_mtreg bus _POWER_DOWN s) h
  · exact MtregInv_of_eq (reset_mtreg bus s) h
  · exact fun v => set_mtreg_inv bus v s
  · exact fun m force => MtregInv_of_eq (set_mode_mtreg bus m force s) h
  · exact MtregInv_of_eq (raw_mtreg bus s) h
  · exact MtregInv_of_eq (lux_mtreg bus s) h

/-- C10 witness: concrete instances of the invariant, through the
constructor and through a clamping `set_mtreg 300` call. -/
theorem C10_mtreg_invariant_witness :
    MtregInv ((init busLow none 0x10 69).state) ∧
    MtregInv ((set_mtreg busLow 300 sDefault).state) :=
  ⟨C10_mtreg_invariant.1 busLow none 0x10 69,
   ((C10_mtreg_invariant.2 busLow sDefault
      (fun c hc => by injection hc with h; omega)).2.2.2.1 300)⟩


/-- C4 — with a stored mode and a stored sensitivity `mt ∈ [31, 254]`,
`lux` logs exactly one wait of `floor(base_ms * mt / 69)` milliseconds
before attempting the raw read (whatever the read outcome), where
`base_ms` is 180 when the mode is one of the four high-resolution modes
{0x10, 0x11, 0x20, 0x21} and 24 otherwise.  (In a one-shot mode the
retrigger transmission must be acknowledged for execution to reach the
wait.) -/
theorem C4_lux_wait_time (bus : Bus) (s : St) (mode mt : Nat)
    (hm : s.mode = some mode) (hmt : s.mtreg = some mt)
    (h31 : 31 ≤ mt) (h254 : mt ≤ 254) (hmode : mode < 256)
    (hw : mode &&& 0xF0 = 0x20 → bus.writeResult s.writeCount = Except.ok ()) :
    ((lux bus s).state).slept =
      s.slept ++ [(if mode = CONTINUOUS_HIGH_RESOLUTION ∨ mode = CONTINUOUS_HIGH_RESOLUTION_2
                     ∨ mode = ONE_TIME_HIGH_RESOLUTION ∨ mode = ONE_TIME_HIGH_RESOLUTION_2
                   then 180 else 24) * mt / 69] := by
  by_cases hos : mode &&& 0xF0 = 0x20
  · rcases hbr : bus.readResult with e | ⟨b0, b1⟩
    · unfold lux
      rw [hm]
      dsimp only
      rw [if_pos hos, set_mode_ok bus mode true s mode hm (Or.inl rfl) hmode (hw hos)]
      dsimp only
      rw [hmt]
      dsimp only
      rw [raw_err bus _ e hbr]
      rfl
    · rw [lux_ok_oneShot bus s mode mt b0 b1 hm hmt hos hmode (hw hos) hbr]
      rfl
  · rcases hbr : bus.readResult with e | ⟨b0, b1⟩
    · unfold lux
      rw [hm]
      dsimp only
      rw [if_neg hos]
      dsimp only
      rw [hmt]
      dsimp only
      rw [raw_err bus _ e hbr]
      rfl
    · rw [lux_ok_cont bus s mode mt b0 b1 hm hmt hos hbr]
      rfl

/-- C4 witness: one-shot high-resolution mode with sensitivity 69 waits
`floor(180 * 69 / 69) = 180` ms. -/
theorem C4_lux_wait_time_witness :
    ((lux busLow sOneShot).state).slept = [180] := by
  have h := C4_lux_wait_time busLow sOneShot 0x20 69 rfl rfl (by decide) (by decide)
    (by decide) (fun _ => rfl)
  simpa [sOneShot, sDefault] using h

/-- C5 — with a stored mode, a stored sensitivity `mt ∈ [31, 254]`, and a
raw big-endian reading assembled from the two received bytes, a
successful `lux` returns `(raw / 1.2) * (69 / mt)`, additionally divided
by 2 exactly when the mode is one of the two high-resolution-2 variants
(0x11, 0x21). -/
theorem C5_lux_value (bus : Bus) (s : St) (mode mt b0 b1 : Nat)
    (hm : s.mode = some mode) (hmt : s.mtreg = some mt)
    (h31 : 31 ≤ mt) (h254 : mt ≤ 254) (hmode : mode < 256)
    (hw : mode &&& 0xF0 = 0x20 → bus.writeResult s.writeCount = Except.ok ())
    (hr : bus.readResult = Except.ok (b0, b1)) (hb0 : b0 < 256) (hb1 : b1 < 256) :
    (lux bus s).val =
      some (if mode = CONTINUOUS_HIGH_RESOLUTION_2 ∨ mode = ONE_TIME_HIGH_RESOLUTION_2
            then ((((b0 <<< 8) ||| b1 : Nat) : ℚ) / 1.2 * ((69 : ℚ) / (mt : ℚ))) / 2
            else (((b0 <<< 8) ||| b1 : Nat) : ℚ) / 1.2 * ((69 : ℚ) / (mt : ℚ))) := by
  have e0 : b0 % 256 = b0 := Nat.mod_eq_of_lt hb0
  have e1 : b1 % 256 = b1 := Nat.mod_eq_of_lt hb1
  by_cases hos : mode &&& 0xF0 = 0x20
  · rw [lux_ok_oneShot bus s mode mt b0 b1 hm hmt hos hmode (hw hos) hr]
    simp [Res.val, e0, e1]
  · rw [lux_ok_cont bus s mode mt b0 b1 hm hmt hos hr]
    simp [Res.val, e0, e1]

/-- C5 witness: raw reading 0xD554 = 54612 with sensitivity 69 in
continuous high-resolution mode yields exactly 45510 lux, within ±0.1 of
the specified 45510.0. -/
theorem C5_lux_value_witness :
    (lux busD554 sDefault).val = some 45510 ∧ |(45510 : ℚ) - 45510| ≤ 1 / 10 := by
  constructor
  · have h := C5_lux_value busD554 sDefault 0x10 69 0xD5 0x54 rfl rfl (by decide)
      (by decide) (by decide) (fun hc => absurd hc (by decide)) rfl (by decide) (by decide)
    rw [h]
    have hv : ((0xD5 <<< 8) ||| 0x54 : Nat) = 54612 := by decide
    rw [hv]
    norm_num [CONTINUOUS_HIGH_RESOLUTION_2, ONE_TIME_HIGH_RESOLUTION_2]
  · norm_num

/-- C7 — when the bus scan succeeds but reports neither candidate address
(0x23 nor 0x5C), construction with no explicit address fails with the
device-not-found error (the not-found `OSError` wrapped by the scan
`except` clause), an error value distinct from every transport-failure
error (wrapped scan `OSError`, write failure, read failure). -/
theorem C7_autodetect_deviceNotFound (bus : Bus) (addrs : List Nat) (mode : Nat)
    (mtreg : Int) (hscan : bus.scanResult = Except.ok addrs)
    (hlo : _ADDR_LOW ∉ addrs) (hhi : _ADDR_HIGH ∉ addrs) :
    init bus none mode mtreg = .err (.osError (.scanFailed .notFound)) (initSt 0) ∧
    (∀ t : String, Err.osError (.scanFailed .notFound) ≠
      Err.osError (.scanFailed (.fromBus t))) ∧
    (∀ e : OSMsg, Err.osError (.scanFailed .notFound) ≠ Err.osError (.writeFailed e)) ∧
    (∀ e : OSMsg, Err.osError (.scanFailed .notFound) ≠ Err.osError (.readFailed e)) := by
  refine ⟨?_, fun t => by simp, fun e => by simp, fun e => by simp⟩
  unfold init
  dsimp only
  unfold _autodetect_addr
  rw [hscan]
  dsimp only
  rw [if_neg hlo, if_neg hhi]

/-- C7 witness: an empty scan result makes construction fail with the
device-not-found error, which differs from a write-failure error. -/
theorem C7_autodetect_deviceNotFound_witness :
    init busEmpty none CONTINUOUS_HIGH_RESOLUTION 69 =
      .err (.osError (.scanFailed .notFound)) (initSt 0) ∧
    Err.osError (.scanFailed .notFound) ≠ Err.osError (.writeFailed (.fromBus "ENODEV")) :=
  ⟨(C7_autodetect_deviceNotFound busEmpty [] CONTINUOUS_HIGH_RESOLUTION 69 rfl
      (by decide) (by decide)).1,
   (C7_autodetect_deviceNotFound busEmpty [] CONTINUOUS_HIGH_RESOLUTION 69 rfl
      (by decide) (by decide)).2.2.1 (.fromBus "ENODEV")⟩

/-- C8 — with a stored one-shot mode (`mode &&& 0xF0 = 0x20`), two
consecutive successful `lux` calls each transmit the mode byte again
(before their raw read, which transmits nothing): after the first call
the transmission log has grown by one copy of the mode byte, after the
second by two.  No "already triggered" state is cached between the calls. -/
theorem C8_one_shot_retransmits_every_read (bus : Bus) (s : St) (m mt b0 b1 : Nat)
    (hm : s.mode = some m) (hmt : s.mtreg = some mt)
    (hos : m &&& 0xF0 = 0x20) (hmode : m < 256)
    (hw0 : bus.writeResult s.writeCount = Except.ok ())
    (hw1 : bus.writeResult (s.writeCount + 1) = Except.ok ())
    (hr : bus.readResult = Except.ok (b0, b1)) :
    ∃ (v1 v2 : ℚ) (s1 s2 : St),
      lux bus s = .ok v1 s1 ∧ s1.written = s.written ++ [m] ∧
      lux bus s1 = .ok v2 s2 ∧ s2.written = s.written ++ [m, m] := by
  refine ⟨_, _, _, _, lux_ok_oneShot bus s m mt b0 b1 hm hmt hos hmode hw0 hr, rfl,
    lux_ok_oneShot bus _ m mt b0 b1 rfl hmt hos hmode hw1 hr, ?_⟩
  simp

/-- C8 witness: in one-shot high-resolution mode, two consecutive reads
each retransmit the 0x20 mode byte. -/
theorem C8_one_shot_retransmits_every_read_witness :
    ((lux busLow sOneShot).state).written = [0x20] ∧
    ((lux busLow ((lux busLow sOneShot).state)).state).written = [0x20, 0x20] := by
  obtain ⟨v1, v2, s1, s2, h1, hwr1, h2, hwr2⟩ :=
    C8_one_shot_retransmits_every_read busLow sOneShot 0x20 69 0 0 rfl rfl
      (by decide) (by decide) rfl rfl rfl
  constructor
  · rw [h1]
    simpa [Res.state, sOneShot, sDefault] using hwr1
  · rw [h1]
    simp only [Res.state]
    rw [h2]
    simpa [Res.state, sOneShot, sDefault] using hwr2
